import Mathlib

/-!
Formal model of the risk-management core of an options trading bot.

Each definition below mirrors one Python function of the source:
`risk_mgmt_2026/risk_manager.py` (exit state machine, daily circuit
breaker, trade sizing), `risk_mgmt_2026/portfolio_monitor.py` (position
monitor), `async_handler_2026.py` (cross-thread bridge) and
`execution_engine_2026/engine.py` (trading-cycle mutual exclusion).
Prices, percentages and dollar amounts are modelled as exact rationals;
calendar dates as natural numbers; the Python dicts keyed by trade id as
association lists.
-/

namespace OptionsBot

/-- Per-strategy stop-loss thresholds: the `self.stop_loss_pct` dict set in
`RiskManager2026.__init__` ({bull: 0.20, bear: 0.15, volatile: 0.30}),
read in `check_exit_conditions` via `.get(trade_type, 0.20)`. -/
def stop_loss_pct (trade_type : String) : ℚ :=
  if trade_type = "bull" then 20/100
  else if trade_type = "bear" then 15/100
  else if trade_type = "volatile" then 30/100
  else 20/100

/-- `self.trailing_stop_threshold = 0.80` in `RiskManager2026.__init__`. -/
def trailing_stop_threshold : ℚ := 80/100

/-- `self.trailing_stop_pct = 0.08` in `RiskManager2026.__init__`. -/
def trailing_stop_pct : ℚ := 8/100

/-- `self.take_profit_pct = 0.30` in `RiskManager2026.__init__`. -/
def take_profit_pct : ℚ := 30/100

/-- Lookup in an association list, modelling Python `dict` read /
`in` membership test (`none` = key absent). -/
def lookupQ : List (String × ℚ) → String → Option ℚ
  | [], _ => none
  | (k, v) :: rest, key => if key = k then some v else lookupQ rest key

/-- Insertion, modelling Python `dict[key] = v`: the new binding is put in
front, shadowing any earlier binding of the same key for `lookupQ`. -/
def insertQ (m : List (String × ℚ)) (key : String) (v : ℚ) :
    List (String × ℚ) :=
  (key, v) :: m

/-- Key removal, modelling Python `dict.pop(key, None)`. -/
def removeQ (m : List (String × ℚ)) (key : String) : List (String × ℚ) :=
  m.filter (fun p => p.1 ≠ key)

/-- The two trade-id-keyed dicts of `RiskManager2026`:
`self.trailing_stops` (trailing stop price per trade) and
`self.highest_profits` (peak profit percentage per trade). -/
structure TrailMaps where
  trailing_stops : List (String × ℚ)
  highest_profits : List (String × ℚ)
deriving DecidableEq

/-- The update block of `RiskManager2026._handle_trailing_stop` for a trade
already present in `trailing_stops` (whose recorded stop is `stop0`):
when `profit_pct` exceeds the recorded peak, record the new peak and raise
the stop to `current_price * (1 - trailing_stop_pct)` if that is higher.
The peak is read via `.getD 0`, modelling `self.highest_profits[trade_id]`;
both dicts are always updated together, so the default is never consulted
on states the manager actually reaches. -/
def trail_update (st : TrailMaps) (trade_id : String)
    (current_price profit_pct stop0 : ℚ) : TrailMaps :=
  if (lookupQ st.highest_profits trade_id).getD 0 < profit_pct then
    if stop0 < current_price * (1 - trailing_stop_pct) then
      ⟨insertQ st.trailing_stops trade_id (current_price * (1 - trailing_stop_pct)),
       insertQ st.highest_profits trade_id profit_pct⟩
    else
      ⟨st.trailing_stops, insertQ st.highest_profits trade_id profit_pct⟩
  else st

/-- `RiskManager2026._handle_trailing_stop(trade_id, current_price,
profit_pct)`: on first entry record the stop at
`current_price * (1 - trailing_stop_pct)` and the peak profit, and report
`trailing_active`; afterwards run the update block and close with
`trailing_stop` exactly when `current_price` is at or below the
(possibly raised) stop. The membership test `trade_id not in
self.trailing_stops` is modelled as `lookupQ ... = none`, and the dict read
`self.trailing_stops[trade_id]` as `.getD 0` (the key is present on that
branch, so the default is never consulted). Returns the updated maps with
the `(should_close, reason)` pair. -/
def handle_trailing_stop (st : TrailMaps) (trade_id : String)
    (current_price profit_pct : ℚ) : TrailMaps × Bool × String :=
  if lookupQ st.trailing_stops trade_id = none then
    (⟨insertQ st.trailing_stops trade_id (current_price * (1 - trailing_stop_pct)),
      insertQ st.highest_profits trade_id profit_pct⟩,
     false, "trailing_active")
  else
    if current_price ≤
        (lookupQ (trail_update st trade_id current_price profit_pct
          ((lookupQ st.trailing_stops trade_id).getD 0)).trailing_stops
          trade_id).getD 0 then
      (trail_update st trade_id current_price profit_pct
        ((lookupQ st.trailing_stops trade_id).getD 0), true, "trailing_stop")
    else
      (trail_update st trade_id current_price profit_pct
        ((lookupQ st.trailing_stops trade_id).getD 0), false, "trailing_active")

/-- `RiskManager2026.check_exit_conditions(trade_id, entry_price,
current_price, trade_type)`. The local `profit_pct = (current_price -
entry_price) / entry_price` is inlined; the final `return False, 'hold'`
of the Python function is the fall-through of both branches. -/
def check_exit_conditions (st : TrailMaps) (trade_id : String)
    (entry_price current_price : ℚ) (trade_type : String) :
    TrailMaps × Bool × String :=
  if 0 < (current_price - entry_price) / entry_price then
    if trailing_stop_threshold ≤ (current_price - entry_price) / entry_price then
      handle_trailing_stop st trade_id current_price
        ((current_price - entry_price) / entry_price)
    else if take_profit_pct ≤ (current_price - entry_price) / entry_price then
      (st, true, "take_profit")
    else
      (st, false, "hold")
  else
    if stop_loss_pct trade_type ≤ |(current_price - entry_price) / entry_price| then
      (st, true, "stop_loss")
    else
      (st, false, "hold")

/-- `RiskManager2026.cleanup_trade(trade_id)`. -/
def cleanup_trade (st : TrailMaps) (trade_id : String) : TrailMaps :=
  ⟨removeQ st.trailing_stops trade_id, removeQ st.highest_profits trade_id⟩

lemma stop_loss_pct_bull : stop_loss_pct "bull" = 20/100 := rfl

lemma stop_loss_pct_bear : stop_loss_pct "bear" = 15/100 := rfl

lemma stop_loss_pct_volatile : stop_loss_pct "volatile" = 30/100 := rfl

/-- Claim C1: with `entryPrice > 0`, a known strategy kind and no active
trailing state, `check_exit_conditions` delegates to the trailing handler
when `profitPct ≥ 0.80`, returns `(true, "take_profit")` when
`0.30 ≤ profitPct < 0.80`, returns `(true, "stop_loss")` when
`profitPct < 0` with `|profitPct|` at or past the per-strategy stop-loss
threshold, and `(false, "hold")` otherwise; and in particular, from
`entryPrice = 100` with kind `bull`, `currentPrice = 79` closes with
`stop_loss`, `81` holds, and `130` closes with `take_profit`. -/
theorem c1_exit_conditions (st : TrailMaps) (trade_id : String)
    (entry current : ℚ) (kind : String)
    (hentry : 0 < entry)
    (hkind : kind = "bull" ∨ kind = "bear" ∨ kind = "volatile")
    (hna : lookupQ st.trailing_stops trade_id = none) :
    (trailing_stop_threshold ≤ (current - entry) / entry →
      check_exit_conditions st trade_id entry current kind =
        handle_trailing_stop st trade_id current ((current - entry) / entry))
    ∧ ((current - entry) / entry < trailing_stop_threshold →
      take_profit_pct ≤ (current - entry) / entry →
      (check_exit_conditions st trade_id entry current kind).2 = (true, "take_profit"))
    ∧ ((current - entry) / entry < 0 →
      stop_loss_pct kind ≤ |(current - entry) / entry| →
      (check_exit_conditions st trade_id entry current kind).2 = (true, "stop_loss"))
    ∧ ((current - entry) / entry < take_profit_pct →
      ((current - entry) / entry < 0 → |(current - entry) / entry| < stop_loss_pct kind) →
      (check_exit_conditions st trade_id entry current kind).2 = (false, "hold"))
    ∧ (check_exit_conditions ⟨[], []⟩ "T1" 100 79 "bull").2 = (true, "stop_loss")
    ∧ (check_exit_conditions ⟨[], []⟩ "T1" 100 81 "bull").2 = (false, "hold")
    ∧ (check_exit_conditions ⟨[], []⟩ "T1" 100 130 "bull").2 = (true, "take_profit") := by
  have hthr : (0 : ℚ) < trailing_stop_threshold := by norm_num [trailing_stop_threshold]
  have htp : (0 : ℚ) < take_profit_pct := by norm_num [take_profit_pct]
  have hsl : (0 : ℚ) < stop_loss_pct kind := by
    rcases hkind with h | h | h <;> rw [h] <;>
      norm_num [stop_loss_pct_bull, stop_loss_pct_bear, stop_loss_pct_volatile]
  refine ⟨?_, ?_, ?_, ?_, ?_, ?_, ?_⟩
  · intro h
    have hp : 0 < (current - entry) / entry := lt_of_lt_of_le hthr h
    unfold check_exit_conditions
    rw [if_pos hp, if_pos h]
  · intro h1 h2
    have hp : 0 < (current - entry) / entry := lt_of_lt_of_le htp h2
    unfold check_exit_conditions
    rw [if_pos hp, if_neg (not_le.mpr h1), if_pos h2]
  · intro h1 h2
    unfold check_exit_conditions
    rw [if_neg (not_lt.mpr (le_of_lt h1)), if_pos h2]
  · intro h1 h2
    unfold check_exit_conditions
    by_cases hp : 0 < (current - entry) / entry
    · have hthr2 : ¬ trailing_stop_threshold ≤ (current - entry) / entry := by
        have : take_profit_pct < trailing_stop_threshold := by
          norm_num [take_profit_pct, trailing_stop_threshold]
        exact not_le.mpr (lt_trans h1 this)
      rw [if_pos hp, if_neg hthr2, if_neg (not_le.mpr h1)]
    · have habs : |(current - entry) / entry| < stop_loss_pct kind := by
        rcases lt_or_eq_of_le (not_lt.mp hp) with hlt | heq
        · exact h2 hlt
        · rw [heq, abs_zero]; exact hsl
      rw [if_neg hp, if_neg (not_le.mpr habs)]
  · norm_num [check_exit_conditions, stop_loss_pct_bull, abs_eq_max_neg, max_def]
  · norm_num [check_exit_conditions, stop_loss_pct_bull, abs_eq_max_neg, max_def]
  · norm_num [check_exit_conditions, stop_loss_pct_bull, take_profit_pct,
      trailing_stop_threshold, abs_eq_max_neg, max_def]

/-- Witness for C1 at `entry = 100`, kind `bull`, the empty trailing map. -/
theorem c1_exit_conditions_witness :
    (check_exit_conditions ⟨[], []⟩ "T1" 100 79 "bull").2 = (true, "stop_loss") := by
  have h := c1_exit_conditions ⟨[], []⟩ "T1" 100 79 "bull"
    (by decide) (Or.inl rfl) rfl
  exact h.2.2.2.2.1

lemma lookupQ_insertQ_self (m : List (String × ℚ)) (k : String) (v : ℚ) :
    lookupQ (insertQ m k v) k = some v := by
  simp [insertQ, lookupQ]

/-- The stop recorded for an already-tracked trade after the update block:
raised to `current_price * (1 - trailing_stop_pct)` exactly when the profit
beats the recorded peak and that candidate beats the old stop. -/
lemma trail_update_stop (st : TrailMaps) (trade_id : String)
    (cp pp stop0 : ℚ) (h : lookupQ st.trailing_stops trade_id = some stop0) :
    lookupQ (trail_update st trade_id cp pp stop0).trailing_stops trade_id =
      some (if (lookupQ st.highest_profits trade_id).getD 0 < pp ∧
                stop0 < cp * (1 - trailing_stop_pct)
            then cp * (1 - trailing_stop_pct) else stop0) := by
  unfold trail_update
  by_cases h1 : (lookupQ st.highest_profits trade_id).getD 0 < pp
  · by_cases h2 : stop0 < cp * (1 - trailing_stop_pct)
    · simp only [if_pos h1, if_pos h2, if_pos (And.intro h1 h2)]
      exact lookupQ_insertQ_self _ _ _
    · have : ¬ ((lookupQ st.highest_profits trade_id).getD 0 < pp ∧
          stop0 < cp * (1 - trailing_stop_pct)) := fun hc => h2 hc.2
      simp only [if_pos h1, if_neg h2, if_neg this]
      exact h
  · have : ¬ ((lookupQ st.highest_profits trade_id).getD 0 < pp ∧
        stop0 < cp * (1 - trailing_stop_pct)) := fun hc => h1 hc.1
    simp only [if_neg h1, if_neg this]
    exact h

/-- Trailing-state evolution of Scenario C after the first tick
(`entryPrice = 100`, `currentPrice = 181`). -/
def trailScenario1 : TrailMaps :=
  (check_exit_conditions ⟨[], []⟩ "T" 100 181 "bull").1

/-- Trailing-state evolution of Scenario C after the second tick
(`currentPrice = 200`). -/
def trailScenario2 : TrailMaps :=
  (check_exit_conditions trailScenario1 "T" 100 200 "bull").1

/-- Claim C2: the trailing handler records
`stopPrice = currentPrice * (1 - 0.08)` and the peak profit on its first
call and reports `trailing_active`; on later calls the stop is raised to
`currentPrice * (1 - 0.08)` exactly when the profit beats the recorded
peak and that value is higher, is never lowered, and the call closes with
`trailing_stop` exactly when `currentPrice ≤ stopPrice`; Scenario C
(`entry = 100`, ticks 181, 200, 183) produces stop 166.52, then 184.00,
then a `trailing_stop` close. -/
theorem c2_trailing_stop (trade_id : String) (cp pp : ℚ) (st : TrailMaps) :
    (lookupQ st.trailing_stops trade_id = none →
      handle_trailing_stop st trade_id cp pp =
        (⟨insertQ st.trailing_stops trade_id (cp * (1 - trailing_stop_pct)),
          insertQ st.highest_profits trade_id pp⟩, false, "trailing_active"))
    ∧ (∀ stop0, lookupQ st.trailing_stops trade_id = some stop0 →
      lookupQ (handle_trailing_stop st trade_id cp pp).1.trailing_stops trade_id =
        some (if (lookupQ st.highest_profits trade_id).getD 0 < pp ∧
                  stop0 < cp * (1 - trailing_stop_pct)
              then cp * (1 - trailing_stop_pct) else stop0)
      ∧ (∀ stop1,
          lookupQ (handle_trailing_stop st trade_id cp pp).1.trailing_stops trade_id =
            some stop1 →
          stop0 ≤ stop1
          ∧ ((handle_trailing_stop st trade_id cp pp).2 = (true, "trailing_stop") ↔
              cp ≤ stop1)
          ∧ ((handle_trailing_stop st trade_id cp pp).2 = (false, "trailing_active") ↔
              ¬ cp ≤ stop1)))
    ∧ (check_exit_conditions ⟨[], []⟩ "T" 100 181 "bull").2 = (false, "trailing_active")
    ∧ lookupQ trailScenario1.trailing_stops "T" = some (16652/100)
    ∧ (check_exit_conditions trailScenario1 "T" 100 200 "bull").2 = (false, "trailing_active")
    ∧ lookupQ trailScenario2.trailing_stops "T" = some 184
    ∧ (check_exit_conditions trailScenario2 "T" 100 183 "bull").2 = (true, "trailing_stop") := by
  refine ⟨?_, ?_, ?_, ?_, ?_, ?_, ?_⟩
  · intro h
    unfold handle_trailing_stop
    rw [h, if_pos rfl]
  · intro stop0 h
    have hupd := trail_update_stop st trade_id cp pp stop0 h
    have hne : lookupQ st.trailing_stops trade_id ≠ none := by
      rw [h]; exact Option.some_ne_none stop0
    have hlook : lookupQ (handle_trailing_stop st trade_id cp pp).1.trailing_stops
        trade_id =
        some (if (lookupQ st.highest_profits trade_id).getD 0 < pp ∧
                  stop0 < cp * (1 - trailing_stop_pct)
              then cp * (1 - trailing_stop_pct) else stop0) := by
      unfold handle_trailing_stop
      rw [if_neg hne, h]
      simp only [Option.getD_some]
      split <;> exact hupd
    refine ⟨hlook, ?_⟩
    intro stop1 h1
    rw [hlook] at h1
    have hstop1 : stop1 =
        (if (lookupQ st.highest_profits trade_id).getD 0 < pp ∧
            stop0 < cp * (1 - trailing_stop_pct)
         then cp * (1 - trailing_stop_pct) else stop0) :=
      (Option.some_inj.mp h1).symm
    have hres : handle_trailing_stop st trade_id cp pp =
        (if cp ≤ stop1 then
          (trail_update st trade_id cp pp stop0, true, "trailing_stop")
         else (trail_update st trade_id cp pp stop0, false, "trailing_active")) := by
      unfold handle_trailing_stop
      rw [if_neg hne, h]
      simp only [Option.getD_some]
      rw [hupd]
      simp only [Option.getD_some, ← hstop1]
    refine ⟨?_, ?_, ?_⟩
    · rw [hstop1]
      split
      · next hc => exact le_of_lt hc.2
      · exact le_refl stop0
    · rw [hres]
      by_cases hc : cp ≤ stop1
      · simp [hc]
      · simp [hc]
    · rw [hres]
      by_cases hc : cp ≤ stop1
      · simp [hc]
      · simp [hc]
  · norm_num [check_exit_conditions, handle_trailing_stop, trail_update,
      lookupQ, insertQ, trailing_stop_threshold, trailing_stop_pct]
  · norm_num [trailScenario1, check_exit_conditions, handle_trailing_stop,
      trail_update, lookupQ, insertQ, trailing_stop_threshold, trailing_stop_pct]
  · norm_num [trailScenario1, check_exit_conditions, handle_trailing_stop,
      trail_update, lookupQ, insertQ, trailing_stop_threshold, trailing_stop_pct]
  · norm_num [trailScenario2, trailScenario1, check_exit_conditions,
      handle_trailing_stop, trail_update, lookupQ, insertQ,
      trailing_stop_threshold, trailing_stop_pct, Option.some_ne_none]
  · norm_num [trailScenario2, trailScenario1, check_exit_conditions,
      handle_trailing_stop, trail_update, lookupQ, insertQ,
      trailing_stop_threshold, trailing_stop_pct, Option.some_ne_none]

/-- Witness for C2: first trailing call for a fresh trade id. -/
theorem c2_trailing_stop_witness :
    handle_trailing_stop ⟨[], []⟩ "W2" 181 (81/100) =
      (⟨insertQ [] "W2" (181 * (1 - trailing_stop_pct)), insertQ [] "W2" (81/100)⟩,
       false, "trailing_active") :=
  (c2_trailing_stop "W2" 181 (81/100) ⟨[], []⟩).1 rfl

/-- The mutable circuit-breaker / sizing state of `RiskManager2026`:
`self.daily_loss`, `self.trading_halted`, `self.current_date` (dates as
abstract day numbers), `self.daily_loss_limit`, `self.portfolio_value`,
the `initial_portfolio_value` attribute read through `getattr` in
`is_trading_halted` (no method of the class ever assigns it, hence
optional), `self.max_trade_size_pct` and the `self._open_symbols` set. -/
structure RiskState where
  daily_loss : ℚ
  trading_halted : Bool
  current_date : ℕ
  daily_loss_limit : ℚ
  portfolio_value : ℚ
  initial_portfolio_value : Option ℚ
  max_trade_size_pct : ℚ
  open_symbols : List String
deriving DecidableEq

/-- The date-rollover block of `RiskManager2026.update_daily_loss`:
`if date.today() != self.current_date: reset loss, clear halt, advance`. -/
def roll_date (s : RiskState) (today : ℕ) : RiskState :=
  if today ≠ s.current_date then
    { s with daily_loss := 0, trading_halted := false, current_date := today }
  else s

/-- `self.daily_loss += loss_amount` in `update_daily_loss`. -/
def add_loss (s : RiskState) (loss_amount : ℚ) : RiskState :=
  { s with daily_loss := s.daily_loss + loss_amount }

/-- `RiskManager2026.update_daily_loss(loss_amount)`; `today` stands for
`date.today()` at the moment of the call. Returns the new state together
with the bool the method returns (`true` = the breaker tripped on this
very call). -/
def update_daily_loss (s : RiskState) (today : ℕ) (loss_amount : ℚ) :
    RiskState × Bool :=
  if (add_loss (roll_date s today) loss_amount).daily_loss_limit ≤
      (add_loss (roll_date s today) loss_amount).daily_loss ∧
      (add_loss (roll_date s today) loss_amount).trading_halted = false then
    ({ add_loss (roll_date s today) loss_amount with trading_halted := true }, true)
  else
    (add_loss (roll_date s today) loss_amount, false)

/-- `RiskManager2026.is_trading_halted()`: halts on
`abs(self.daily_loss) >= self.daily_loss_limit`, or on
`self.portfolio_value < initial_value * 0.8` where `initial_value =
getattr(self, 'initial_portfolio_value', self.portfolio_value)`.
It does not read the `trading_halted` flag. -/
def is_trading_halted (s : RiskState) : Bool :=
  if s.daily_loss_limit ≤ |s.daily_loss| then true
  else if s.portfolio_value <
      s.initial_portfolio_value.getD s.portfolio_value * (8/10) then true
  else false

/-- `RiskManager2026.can_open_position(symbol)`. -/
def can_open_position (s : RiskState) (symbol : String) : Bool :=
  if s.trading_halted = true then false
  else if symbol ∈ s.open_symbols then false
  else true

/-- `RiskManager2026.calculate_max_trade_size()`: the per-trade cap
`portfolio_value * max_trade_size_pct`, replaced by half of the remaining
daily budget (floored at 0) once that budget falls below the cap. -/
def calculate_max_trade_size (s : RiskState) : ℚ :=
  if s.daily_loss_limit - |s.daily_loss| < s.portfolio_value * s.max_trade_size_pct
  then max 0 ((s.daily_loss_limit - |s.daily_loss|) * (1/2))
  else s.portfolio_value * s.max_trade_size_pct

/-- The fields of an opportunity dict that
`RiskManager2026.check_risk_exposure` reads, each optional exactly where
the Python uses `.get`. -/
structure Opportunity where
  max_loss : Option ℚ
  position_size : Option ℚ
  debit : Option ℚ
deriving DecidableEq

/-- `trade_risk = float(max_loss) * quantity * 100` in
`check_risk_exposure`, with `quantity = opportunity.get('position_size', 1)`
and the fall-back `max_loss = opportunity.get('debit', 0)` when `max_loss`
is absent. -/
def opportunity_trade_risk (opp : Opportunity) : ℚ :=
  (match opp.max_loss with
   | some m => m
   | none => opp.debit.getD 0) * opp.position_size.getD 1 * 100

/-- `RiskManager2026.check_risk_exposure(opportunity)`: rejects exactly
when `trade_risk > self.portfolio_value * self.max_trade_size_pct`. -/
def check_risk_exposure (s : RiskState) (opp : Opportunity) : Bool :=
  if s.portfolio_value * s.max_trade_size_pct < opportunity_trade_risk opp
  then false
  else true

/-- `RiskManager2026.check_volatility_limits`: the placeholder that always
accepts. -/
def check_volatility_limits (_s : RiskState) (_opp : Opportunity) : Bool :=
  true

/-- Scenario D start state: `dailyLossLimit = 1000`, no loss, not halted,
portfolio 100000 at 10% trade sizing, stored date 0. -/
def breakerStart : RiskState := ⟨0, false, 0, 1000, 100000, none, 10/100, []⟩

/-- Scenario D after `updateDailyLoss(400)`. -/
def breakerScenario1 : RiskState := (update_daily_loss breakerStart 0 400).1

/-- Scenario D after a second `updateDailyLoss(400)`. -/
def breakerScenario2 : RiskState := (update_daily_loss breakerScenario1 0 400).1

/-- Scenario D after the third call, `updateDailyLoss(300)`. -/
def breakerScenario3 : RiskState := (update_daily_loss breakerScenario2 0 300).1

/-- Scenario D after a further same-date call. -/
def breakerScenario4 : RiskState := (update_daily_loss breakerScenario3 0 50).1

/-- Claim C4: `update_daily_loss` resets loss, halt flag and stored date
exactly on a date change, then accumulates the amount, and sets the halt
flag exactly when the running loss reaches the limit (never clearing it on
the same date); Scenario D (limit 1000; same-date amounts 400, 400, 300)
trips the breaker on the third call, keeps it tripped on a further
same-date call, and a call after the date advances resets the loss to 0
and the flag to false. -/
theorem c4_update_daily_loss (s : RiskState) (today : ℕ) (amount : ℚ) :
    (today ≠ s.current_date →
      (update_daily_loss s today amount).1.current_date = today
      ∧ (update_daily_loss s today amount).1.daily_loss = amount
      ∧ ((update_daily_loss s today amount).1.trading_halted = true ↔
          s.daily_loss_limit ≤ amount))
    ∧ (today = s.current_date →
      (update_daily_loss s today amount).1.current_date = s.current_date
      ∧ (update_daily_loss s today amount).1.daily_loss = s.daily_loss + amount
      ∧ ((update_daily_loss s today amount).1.trading_halted = true ↔
          (s.trading_halted = true ∨ s.daily_loss_limit ≤ s.daily_loss + amount)))
    ∧ breakerScenario2.trading_halted = false
    ∧ breakerScenario3.trading_halted = true
    ∧ breakerScenario4.trading_halted = true
    ∧ (update_daily_loss breakerScenario4 1 0).1.daily_loss = 0
    ∧ (update_daily_loss breakerScenario4 1 0).1.trading_halted = false := by
  refine ⟨?_, ?_, ?_, ?_, ?_, ?_, ?_⟩
  · intro h
    unfold update_daily_loss add_loss roll_date
    rw [if_pos h]
    simp only [zero_add]
    by_cases hc : s.daily_loss_limit ≤ amount
    · rw [if_pos ⟨hc, by trivial⟩]
      simp [hc]
    · rw [if_neg (fun hx => hc hx.1)]
      simp [hc]
  · intro h
    unfold update_daily_loss add_loss roll_date
    rw [if_neg (not_not_intro h)]
    by_cases hb : s.trading_halted = true
    · rw [if_neg (fun hx => by rw [hb] at hx; exact Bool.noConfusion hx.2)]
      simp [hb]
    · have hb2 : s.trading_halted = false := by
        cases hhb : s.trading_halted
        · rfl
        · exact absurd hhb hb
      by_cases hc : s.daily_loss_limit ≤ s.daily_loss + amount
      · rw [if_pos ⟨hc, hb2⟩]
        simp [hc]
      · rw [if_neg (fun hx => hc hx.1)]
        simp [hb2, hc]
  · norm_num [breakerScenario2, breakerScenario1, breakerStart,
      update_daily_loss, add_loss, roll_date]
  · norm_num [breakerScenario3, breakerScenario2, breakerScenario1,
      breakerStart, update_daily_loss, add_loss, roll_date]
  · norm_num [breakerScenario4, breakerScenario3, breakerScenario2,
      breakerScenario1, breakerStart, update_daily_loss, add_loss, roll_date]
  · norm_num [breakerScenario4, breakerScenario3, breakerScenario2,
      breakerScenario1, breakerStart, update_daily_loss, add_loss, roll_date]
  · norm_num [breakerScenario4, breakerScenario3, breakerScenario2,
      breakerScenario1, breakerStart, update_daily_loss, add_loss, roll_date]

/-- Witness for C4: a same-date call from a tripped state keeps the flag. -/
theorem c4_update_daily_loss_witness :
    (update_daily_loss ⟨1100, true, 0, 1000, 100000, none, 10/100, []⟩ 0 50).1.trading_halted
      = true := by
  have h := (c4_update_daily_loss ⟨1100, true, 0, 1000, 100000, none, 10/100, []⟩ 0 50).2.1 rfl
  exact h.2.2.mpr (Or.inl rfl)

/-- A same-date `update_daily_loss` call from a halted state keeps the
halt flag and the stored date, whatever the amount (nothing in the method
clears the flag without a date change). -/
lemma update_daily_loss_same_date_halted (t : RiskState) (a : ℚ)
    (h1 : t.trading_halted = true) :
    (update_daily_loss t t.current_date a).1.trading_halted = true
    ∧ (update_daily_loss t t.current_date a).1.current_date = t.current_date := by
  unfold update_daily_loss add_loss roll_date
  rw [if_neg (not_not_intro rfl)]
  rw [if_neg (fun hx => by rw [h1] at hx; exact Bool.noConfusion hx.2)]
  exact ⟨h1, rfl⟩

/-- Folding any same-date sequence of `update_daily_loss` calls over a
halted state keeps the halt flag and the stored date. -/
lemma foldl_same_date_halted (d : ℕ) (amounts : List ℚ) :
    ∀ t : RiskState, t.trading_halted = true → t.current_date = d →
      (amounts.foldl (fun u a => (update_daily_loss u d a).1) t).trading_halted = true
      ∧ (amounts.foldl (fun u a => (update_daily_loss u d a).1) t).current_date = d := by
  induction amounts with
  | nil => intro t h1 h2; exact ⟨h1, h2⟩
  | cons a as ih =>
      intro t h1 h2
      rw [List.foldl_cons]
      have hstep := update_daily_loss_same_date_halted t a h1
      rw [h2] at hstep
      exact ih _ hstep.1 hstep.2

/-- First halted state of the C5 trace: one `updateDailyLoss(1100)` call
against limit 1000 on date 0. -/
def haltState1 : RiskState :=
  (update_daily_loss ⟨0, false, 0, 1000, 100000, none, 10/100, []⟩ 0 1100).1

/-- C5 trace after a further same-date `updateDailyLoss(-600)`. -/
def haltState2 : RiskState := (update_daily_loss haltState1 0 (-600)).1

/-- Counterexample to claim C5 as stated: after tripping the breaker
(loss 1100 ≥ limit 1000, flag set, `is_trading_halted` reporting halted),
a same-date `updateDailyLoss(-600)` leaves the flag set — yet
`is_trading_halted`, which recomputes from the now-reduced `daily_loss`
and never reads the flag, reports NOT halted, contradicting "every
subsequent halt read reports halted". -/
theorem c5_counterexample :
    haltState1.trading_halted = true
    ∧ is_trading_halted haltState1 = true
    ∧ haltState2.current_date = haltState1.current_date
    ∧ haltState2.trading_halted = true
    ∧ haltState2.daily_loss = 500
    ∧ is_trading_halted haltState2 = false := by
  refine ⟨?_, ?_, ?_, ?_, ?_, ?_⟩ <;>
    norm_num [haltState2, haltState1, update_daily_loss, add_loss, roll_date,
      is_trading_halted, abs_eq_max_neg, max_def]

/-- Claim C5 as amended: once `trading_halted = true`, the flag itself
stays true and `can_open_position` rejects every symbol across any further
same-date `update_daily_loss` amounts (including negative ones) until the
stored date advances; the reads that report halted are the flag and
`can_open_position`, while `is_trading_halted` recomputes from the current
`daily_loss` and may report not-halted once negative amounts bring the
loss back under the limit. -/
theorem c5_halt_persistence (s : RiskState) (amounts : List ℚ)
    (hhalt : s.trading_halted = true) :
    ((amounts.foldl (fun u a => (update_daily_loss u s.current_date a).1) s).trading_halted
      = true)
    ∧ ((amounts.foldl (fun u a => (update_daily_loss u s.current_date a).1) s).current_date
      = s.current_date)
    ∧ (∀ symbol, can_open_position
        (amounts.foldl (fun u a => (update_daily_loss u s.current_date a).1) s) symbol
        = false) := by
  have h := foldl_same_date_halted s.current_date amounts s hhalt rfl
  refine ⟨h.1, h.2, ?_⟩
  intro symbol
  unfold can_open_position
  rw [if_pos h.1]

/-- Witness for C5 (amended) at a concrete halted state and the amount
sequence of the counterexample trace. -/
theorem c5_halt_persistence_witness :
    can_open_position
      ([(-600 : ℚ)].foldl
        (fun u a =>
          (update_daily_loss u
            (⟨1100, true, 0, 1000, 100000, none, 10/100, []⟩ : RiskState).current_date a).1)
        ⟨1100, true, 0, 1000, 100000, none, 10/100, []⟩) "AAPL" = false :=
  (c5_halt_persistence ⟨1100, true, 0, 1000, 100000, none, 10/100, []⟩
    [(-600 : ℚ)] rfl).2.2 "AAPL"

/-- The gate state of the C6 counterexample: 900 of the 1000 daily budget
already lost, portfolio 100000, 10% per-trade sizing. -/
def exposureState : RiskState := ⟨900, false, 0, 1000, 100000, none, 10/100, []⟩

/-- The opportunity of the C6 counterexample: `max_loss` 60 per share, one
contract. -/
def exposureOpp : Opportunity := ⟨some 60, some 1, none⟩

/-- Counterexample to claim C6 as stated: this opportunity passes every
gate check (`can_open_position`, `check_risk_exposure`,
`check_volatility_limits`) although its risk — 60 per share, and
60 * 1 * 100 = 6000 in dollars — exceeds `calculate_max_trade_size()`,
which the accumulated daily loss has shrunk to
`max 0 ((1000 - 900) * 0.5) = 50`: the exposure check compares against
`portfolio_value * max_trade_size_pct = 10000`, not against the shrunken
envelope. -/
theorem c6_counterexample :
    can_open_position exposureState "AAPL" = true
    ∧ check_risk_exposure exposureState exposureOpp = true
    ∧ check_volatility_limits exposureState exposureOpp = true
    ∧ calculate_max_trade_size exposureState = 50
    ∧ calculate_max_trade_size exposureState < opportunity_trade_risk exposureOpp
    ∧ calculate_max_trade_size exposureState <
        (exposureOpp.max_loss.getD 0) * exposureOpp.position_size.getD 1 := by
  refine ⟨?_, ?_, ?_, ?_, ?_, ?_⟩ <;>
    norm_num [exposureState, exposureOpp, can_open_position, check_risk_exposure,
      check_volatility_limits, calculate_max_trade_size, opportunity_trade_risk,
      abs_eq_max_neg, max_def, List.mem_singleton]

/-- Claim C6 as amended: the risk-exposure gate admits a trade exactly
when its dollar risk `maxLoss * quantity * 100` is at most
`portfolioValue * maxTradeSizePct`; the daily-budget-shrunken
`calculate_max_trade_size` envelope is not what `check_risk_exposure`
enforces. -/
theorem c6_risk_exposure_bound (s : RiskState) (opp : Opportunity) :
    check_risk_exposure s opp = true ↔
      opportunity_trade_risk opp ≤ s.portfolio_value * s.max_trade_size_pct := by
  unfold check_risk_exposure
  by_cases hc : s.portfolio_value * s.max_trade_size_pct < opportunity_trade_risk opp
  · rw [if_pos hc]
    simp [not_le.mpr hc]
  · rw [if_neg hc]
    simp [not_lt.mp hc]

/-- Claim C7: `is_trading_halted` is the disjunction of two independently
evaluable conditions — daily-loss breach (`|dailyLoss| ≥ dailyLossLimit`)
and a 20% drawdown from the initial portfolio value (`portfolioValue <
initialPortfolioValue * 0.8`, the initial value defaulting to the current
one when the attribute was never set) — and each condition alone forces a
halted report. -/
theorem c7_halt_conditions (s : RiskState) :
    (is_trading_halted s = true ↔
      (s.daily_loss_limit ≤ |s.daily_loss| ∨
        s.portfolio_value < s.initial_portfolio_value.getD s.portfolio_value * (8/10)))
    ∧ (s.daily_loss_limit ≤ |s.daily_loss| → is_trading_halted s = true)
    ∧ (∀ iv, s.initial_portfolio_value = some iv →
        s.portfolio_value < iv * (8/10) → is_trading_halted s = true) := by
  have hiff : is_trading_halted s = true ↔
      (s.daily_loss_limit ≤ |s.daily_loss| ∨
        s.portfolio_value < s.initial_portfolio_value.getD s.portfolio_value * (8/10)) := by
    unfold is_trading_halted
    by_cases h1 : s.daily_loss_limit ≤ |s.daily_loss|
    · simp [h1]
    · by_cases h2 : s.portfolio_value <
          s.initial_portfolio_value.getD s.portfolio_value * (8/10)
      · simp [h1, h2]
      · simp [h1, h2]
  refine ⟨hiff, fun h => hiff.mpr (Or.inl h), fun iv hiv h => hiff.mpr (Or.inr ?_)⟩
  rw [hiv]
  simpa using h

/-- Witness for C7: a pure daily-loss breach with the drawdown attribute
absent. -/
theorem c7_halt_conditions_witness :
    is_trading_halted ⟨1100, true, 0, 1000, 100000, none, 10/100, []⟩ = true :=
  (c7_halt_conditions ⟨1100, true, 0, 1000, 100000, none, 10/100, []⟩).2.1 (by decide)

/-- The trailing handler only ever reports `trailing_stop` or
`trailing_active`. -/
lemma handle_trailing_stop_reason (st : TrailMaps) (trade_id : String)
    (cp pp : ℚ) :
    (handle_trailing_stop st trade_id cp pp).2.2 = "trailing_stop"
    ∨ (handle_trailing_stop st trade_id cp pp).2.2 = "trailing_active" := by
  unfold handle_trailing_stop
  split
  · exact Or.inr rfl
  · split
    · exact Or.inl rfl
    · exact Or.inr rfl

/-- Counterexample to claim C3 as stated: with a trailing state active for
trade `"T"` (stop 166.52, peak 81%, from entry 100 and a 181 tick), a tick
at `currentPrice = 150` (profit 50%, inside `[0.30, 0.80)`) makes
`check_exit_conditions` return `(true, "take_profit")` — the active
trailing state is bypassed because the take-profit branch never consults
`trailing_stops`. -/
theorem c3_counterexample :
    lookupQ (TrailMaps.mk [("T", 16652/100)] [("T", 81/100)]).trailing_stops "T"
      = some (16652/100)
    ∧ (check_exit_conditions ⟨[("T", 16652/100)], [("T", 81/100)]⟩ "T" 100 150 "bull").2
      = (true, "take_profit") := by
  constructor
  · rfl
  · norm_num [check_exit_conditions, take_profit_pct, trailing_stop_threshold]

/-- Claim C3 as amended: for a trade with an active trailing state,
`check_exit_conditions` never returns `take_profit` while
`profitPct ≥ 0.80` (the trailing handler takes over there); but when the
profit retraces into `[0.30, 0.80)` the call returns
`(true, "take_profit")` even though the trailing state is still active —
in particular at the concrete active-trailing state with stop 166, peak
100%, and a 200 tick the reason is not `take_profit`. -/
theorem c3_trailing_no_take_profit (st : TrailMaps) (trade_id : String)
    (entry current : ℚ) (kind : String) (stop0 : ℚ)
    (hactive : lookupQ st.trailing_stops trade_id = some stop0) :
    (trailing_stop_threshold ≤ (current - entry) / entry →
      (check_exit_conditions st trade_id entry current kind).2.2 ≠ "take_profit")
    ∧ (take_profit_pct ≤ (current - entry) / entry →
      (current - entry) / entry < trailing_stop_threshold →
      (check_exit_conditions st trade_id entry current kind).2 = (true, "take_profit"))
    ∧ (check_exit_conditions ⟨[("T", 166)], [("T", 1)]⟩ "T" 100 200 "bull").2.2
        ≠ "take_profit" := by
  refine ⟨?_, ?_, ?_⟩
  · intro h
    have hp : 0 < (current - entry) / entry :=
      lt_of_lt_of_le (by norm_num [trailing_stop_threshold]) h
    unfold check_exit_conditions
    rw [if_pos hp, if_pos h]
    rcases handle_trailing_stop_reason st trade_id current ((current - entry) / entry)
      with hr | hr <;> rw [hr] <;> decide
  · intro h1 h2
    have hp : 0 < (current - entry) / entry :=
      lt_of_lt_of_le (by norm_num [take_profit_pct]) h1
    unfold check_exit_conditions
    rw [if_pos hp, if_neg (not_le.mpr h2), if_pos h1]
  · have hval : (check_exit_conditions ⟨[("T", 166)], [("T", 1)]⟩ "T" 100 200 "bull").2.2
        = "trailing_active" := by
      norm_num [check_exit_conditions, handle_trailing_stop, trail_update, lookupQ,
        insertQ, trailing_stop_threshold, trailing_stop_pct, Option.some_ne_none]
    rw [hval]
    decide

/-- Witness for C3 (amended) at the concrete active-trailing state of its
closed conjunct. -/
theorem c3_trailing_no_take_profit_witness :
    (check_exit_conditions ⟨[("T", 166)], [("T", 1)]⟩ "T" 100 200 "bull").2.2
      ≠ "take_profit" :=
  (c3_trailing_no_take_profit ⟨[("T", 166)], [("T", 1)]⟩ "T" 100 200 "bull"
    166 rfl).2.2

/-- Outcome of the pending-result slot (the `concurrent.futures.Future`
created in `AsyncHandler2026.run_async` and resolved by
`_process_requests`): the queued coroutine either resolves the future `t`
seconds after submission — with a value, or with the exception the
coroutine raised — or never resolves it. -/
inductive SlotOutcome (α : Type) where
  | resolvesAt (t : ℕ) (outcome : Except String α)
  | never

/-- The bound of `future.result(timeout=30)` in `run_async`, in seconds. -/
def bridge_timeout : ℕ := 30

/-- `AsyncHandler2026.run_async(coro_func, ...)`: raises when the handler
thread was never started; otherwise enqueues the request and blocks on the
future for at most `bridge_timeout` seconds, raising the timeout error
when the result is still unresolved at the bound, and otherwise returning
the value or re-raising the coroutine's exception. The real-time blocking
wait is modelled by the slot's resolution time. -/
def run_async {α : Type} (started : Bool) (slot : SlotOutcome α) :
    Except String α :=
  if started = false then Except.error "Async handler not started"
  else
    match slot with
    | SlotOutcome.resolvesAt t out =>
        if t ≤ bridge_timeout then out
        else Except.error "Async operation timed out"
    | SlotOutcome.never => Except.error "Async operation timed out"

/-- Claim C8: a started bridge's `run_async` waits at most the 30-second
bound: a slot still unresolved at the bound (resolving later or never)
makes the call raise the timeout error rather than block indefinitely or
return a value, and a value is returned only from a slot resolved with it
within the bound. -/
theorem c8_bridge_timeout {α : Type} (slot : SlotOutcome α) :
    (∀ t out, slot = SlotOutcome.resolvesAt t out → bridge_timeout < t →
      run_async true slot = Except.error "Async operation timed out")
    ∧ (slot = SlotOutcome.never →
      run_async true slot = Except.error "Async operation timed out")
    ∧ (∀ v, run_async true slot = Except.ok v →
      ∃ t, slot = SlotOutcome.resolvesAt t (Except.ok v) ∧ t ≤ bridge_timeout)
    ∧ bridge_timeout = 30 := by
  refine ⟨?_, ?_, ?_, rfl⟩
  · intro t out hslot ht
    rw [hslot]
    unfold run_async
    rw [if_neg (by decide)]
    show (if t ≤ bridge_timeout then out
        else Except.error "Async operation timed out")
      = Except.error "Async operation timed out"
    rw [if_neg (not_le.mpr ht)]
  · intro hslot
    rw [hslot]
    unfold run_async
    rw [if_neg (by decide)]
  · intro v hok
    unfold run_async at hok
    rw [if_neg (by decide)] at hok
    cases hslot : slot with
    | resolvesAt t out =>
        rw [hslot] at hok
        have hok2 : (if t ≤ bridge_timeout then out
            else Except.error "Async operation timed out") = Except.ok v := hok
        by_cases ht : t ≤ bridge_timeout
        · rw [if_pos ht] at hok2
          exact ⟨t, by rw [hok2], ht⟩
        · rw [if_neg ht] at hok2
          exact absurd hok2 (by simp)
    | never =>
        rw [hslot] at hok
        exact absurd hok (by simp)

/-- Witness for C8: a never-resolving slot times out. -/
theorem c8_bridge_timeout_witness :
    run_async true (SlotOutcome.never : SlotOutcome ℚ) =
      Except.error "Async operation timed out" :=
  (c8_bridge_timeout (SlotOutcome.never : SlotOutcome ℚ)).2.1 rfl

/-- The observable phases of one `run_trading_cycle` invocation: not yet
invoked, awaiting the semaphore, inside the cycle body, and returned. -/
inductive CyclePhase where
  | idle
  | waiting
  | running
  | done
deriving DecidableEq

/-- Two concurrent `run_trading_cycle` invocations against
`self._cycle_semaphore = asyncio.Semaphore(1)` created in
`ExecutionEngine2026.__init__`: `sem` is true while the single permit is
available. -/
structure EngineState where
  sem : Bool
  p1 : CyclePhase
  p2 : CyclePhase
deriving DecidableEq

/-- The semaphore discipline of `run_trading_cycle`'s
`async with self._cycle_semaphore` block: an invocation starts
(idle → waiting), enters the cycle body only by taking the available
permit (waiting → running), and releases the permit when the body
completes (running → done). A waiting invocation has no other transition —
in particular it is never dropped to `done` without running. -/
inductive CycleStep : EngineState → EngineState → Prop where
  | invoke1 (s : EngineState) (h : s.p1 = CyclePhase.idle) :
      CycleStep s { s with p1 := CyclePhase.waiting }
  | invoke2 (s : EngineState) (h : s.p2 = CyclePhase.idle) :
      CycleStep s { s with p2 := CyclePhase.waiting }
  | acquire1 (s : EngineState) (h : s.p1 = CyclePhase.waiting)
      (hs : s.sem = true) :
      CycleStep s { s with p1 := CyclePhase.running, sem := false }
  | acquire2 (s : EngineState) (h : s.p2 = CyclePhase.waiting)
      (hs : s.sem = true) :
      CycleStep s { s with p2 := CyclePhase.running, sem := false }
  | finish1 (s : EngineState) (h : s.p1 = CyclePhase.running) :
      CycleStep s { s with p1 := CyclePhase.done, sem := true }
  | finish2 (s : EngineState) (h : s.p2 = CyclePhase.running) :
      CycleStep s { s with p2 := CyclePhase.done, sem := true }

/-- Both invocations pending, permit available. -/
def engineInit : EngineState := ⟨true, CyclePhase.idle, CyclePhase.idle⟩

/-- States the two-invocation engine can reach from `engineInit`. -/
def EngineReachable (s : EngineState) : Prop :=
  Relation.ReflTransGen CycleStep engineInit s

/-- Inductive invariant: the permit is gone while someone runs, and the
two invocations are never both inside the cycle body. -/
def CycleInv (s : EngineState) : Prop :=
  ((s.p1 = CyclePhase.running ∨ s.p2 = CyclePhase.running) → s.sem = false)
  ∧ ¬ (s.p1 = CyclePhase.running ∧ s.p2 = CyclePhase.running)

lemma cycleInv_init : CycleInv engineInit := by
  constructor
  · rintro (h | h) <;> exact CyclePhase.noConfusion h
  · rintro ⟨h, -⟩
    exact CyclePhase.noConfusion h

lemma cycleStep_preserves (s s2 : EngineState) (hstep : CycleStep s s2)
    (hinv : CycleInv s) : CycleInv s2 := by
  cases hstep with
  | invoke1 h =>
      refine ⟨?_, ?_⟩
      · rintro (h1 | h2)
        · exact CyclePhase.noConfusion h1
        · exact hinv.1 (Or.inr h2)
      · rintro ⟨h1, -⟩
        exact CyclePhase.noConfusion h1
  | invoke2 h =>
      refine ⟨?_, ?_⟩
      · rintro (h1 | h2)
        · exact hinv.1 (Or.inl h1)
        · exact CyclePhase.noConfusion h2
      · rintro ⟨-, h2⟩
        exact CyclePhase.noConfusion h2
  | acquire1 h hs =>
      refine ⟨fun _ => rfl, ?_⟩
      rintro ⟨-, h2⟩
      have hf := hinv.1 (Or.inr h2)
      rw [hs] at hf
      exact Bool.noConfusion hf
  | acquire2 h hs =>
      refine ⟨fun _ => rfl, ?_⟩
      rintro ⟨h1, -⟩
      have hf := hinv.1 (Or.inl h1)
      rw [hs] at hf
      exact Bool.noConfusion hf
  | finish1 h =>
      refine ⟨?_, ?_⟩
      · rintro (h1 | h2)
        · exact CyclePhase.noConfusion h1
        · exact absurd ⟨h, h2⟩ hinv.2
      · rintro ⟨h1, -⟩
        exact CyclePhase.noConfusion h1
  | finish2 h =>
      refine ⟨?_, ?_⟩
      · rintro (h1 | h2)
        · exact absurd ⟨h1, h⟩ hinv.2
        · exact CyclePhase.noConfusion h2
      · rintro ⟨-, h2⟩
        exact CyclePhase.noConfusion h2

lemma engineReachable_inv (s : EngineState) (h : EngineReachable s) :
    CycleInv s := by
  induction h with
  | refl => exact cycleInv_init
  | tail hab hstep ih => exact cycleStep_preserves _ _ hstep ih

/-- Claim C9: in every reachable state of the two-invocation engine the
cycle bodies never overlap; a waiting invocation is never silently
dropped (its only transitions are to keep waiting or to enter the body);
and from the state where the first invocation runs while the second
waits, the second enters the body right after the first completes
(block-and-wait): that state is reachable, the first can finish, and the
second can then acquire the released permit. -/
theorem c9_cycle_mutual_exclusion :
    (∀ s : EngineState, EngineReachable s →
      ¬ (s.p1 = CyclePhase.running ∧ s.p2 = CyclePhase.running))
    ∧ (∀ s s2 : EngineState, CycleStep s s2 → s.p2 = CyclePhase.waiting →
      s2.p2 = CyclePhase.waiting ∨ s2.p2 = CyclePhase.running)
    ∧ EngineReachable ⟨false, CyclePhase.running, CyclePhase.waiting⟩
    ∧ CycleStep ⟨false, CyclePhase.running, CyclePhase.waiting⟩
        ⟨true, CyclePhase.done, CyclePhase.waiting⟩
    ∧ CycleStep ⟨true, CyclePhase.done, CyclePhase.waiting⟩
        ⟨false, CyclePhase.done, CyclePhase.running⟩ := by
  refine ⟨?_, ?_, ?_, ?_, ?_⟩
  · intro s h
    exact (engineReachable_inv s h).2
  · intro s s2 hstep h
    cases hstep with
    | invoke1 h1 => exact Or.inl h
    | invoke2 h1 => rw [h1] at h; exact CyclePhase.noConfusion h
    | acquire1 h1 hs => exact Or.inl h
    | acquire2 h1 hs => exact Or.inr rfl
    | finish1 h1 => exact Or.inl h
    | finish2 h1 => rw [h1] at h; exact CyclePhase.noConfusion h
  · have h1 : CycleStep engineInit ⟨true, CyclePhase.waiting, CyclePhase.idle⟩ :=
      CycleStep.invoke1 engineInit rfl
    have h2 : CycleStep ⟨true, CyclePhase.waiting, CyclePhase.idle⟩
        ⟨false, CyclePhase.running, CyclePhase.idle⟩ :=
      CycleStep.acquire1 ⟨true, CyclePhase.waiting, CyclePhase.idle⟩ rfl rfl
    have h3 : CycleStep ⟨false, CyclePhase.running, CyclePhase.idle⟩
        ⟨false, CyclePhase.running, CyclePhase.waiting⟩ :=
      CycleStep.invoke2 ⟨false, CyclePhase.running, CyclePhase.idle⟩ rfl
    exact Relation.ReflTransGen.tail
      (Relation.ReflTransGen.tail
        (Relation.ReflTransGen.tail Relation.ReflTransGen.refl h1) h2) h3
  · exact CycleStep.finish1 ⟨false, CyclePhase.running, CyclePhase.waiting⟩ rfl
  · exact CycleStep.acquire2 ⟨true, CyclePhase.done, CyclePhase.waiting⟩ rfl rfl

/-- Witness for C9: the reachable running-while-waiting state satisfies
mutual exclusion. -/
theorem c9_cycle_mutual_exclusion_witness :
    ¬ ((⟨false, CyclePhase.running, CyclePhase.waiting⟩ : EngineState).p1
        = CyclePhase.running
      ∧ (⟨false, CyclePhase.running, CyclePhase.waiting⟩ : EngineState).p2
        = CyclePhase.running) :=
  c9_cycle_mutual_exclusion.1 ⟨false, CyclePhase.running, CyclePhase.waiting⟩
    c9_cycle_mutual_exclusion.2.2.1

/-- `check_exit_conditions` with the Python division behaviour made
explicit: `profit_pct = (current_price - entry_price) / entry_price`
raises `ZeroDivisionError` when `entry_price == 0` — the function has no
guard — and otherwise the computation is the total one above. -/
def check_exit_conditions_checked (st : TrailMaps) (trade_id : String)
    (entry_price current_price : ℚ) (trade_type : String) :
    Except String (TrailMaps × Bool × String) :=
  if entry_price = 0 then Except.error "ZeroDivisionError"
  else Except.ok (check_exit_conditions st trade_id entry_price current_price
    trade_type)

/-- The fields of an `ib_insync` position object that
`PortfolioMonitor2026._check_positions` reads. -/
structure BrokerPosition where
  symbol : String
  conId : ℕ
  secType : String
  avgCost : ℚ
  marketValue : ℚ
  position : ℤ
deriving DecidableEq

/-- The per-position body of `PortfolioMonitor2026._check_positions` up to
its `check_exit_conditions` call: the entry price is the stored one or,
for a newly tracked position, `position.avgCost` — passed with no zero
check; the current value is `marketValue / abs(position)` guarded to 0
only for an empty position. `entry_prices` models
`self.position_entry_prices`. -/
def monitor_check_position (st : TrailMaps) (entry_prices : List (String × ℚ))
    (pos : BrokerPosition) (trade_type : String) :
    Except String (TrailMaps × Bool × String) :=
  check_exit_conditions_checked st (pos.symbol ++ "_" ++ toString pos.conId)
    ((lookupQ entry_prices (pos.symbol ++ "_" ++ toString pos.conId)).getD pos.avgCost)
    (if pos.position ≠ 0 then pos.marketValue / |(pos.position : ℚ)| else 0)
    trade_type

/-- Claim C10: the exit check divides by `entryPrice` with no guard — for
`entryPrice ≠ 0` the checked computation is total and equals the pure
function (the division-error branch is unreachable), while `entryPrice = 0`
raises the division error; and the monitor, which passes an untracked
position's `avgCost` through unchecked, propagates that error when
`avgCost = 0`. -/
theorem c10_entry_price_guard (st : TrailMaps) (trade_id : String)
    (entry current : ℚ) (kind : String) :
    (entry ≠ 0 →
      check_exit_conditions_checked st trade_id entry current kind =
        Except.ok (check_exit_conditions st trade_id entry current kind))
    ∧ (entry = 0 →
      check_exit_conditions_checked st trade_id entry current kind =
        Except.error "ZeroDivisionError")
    ∧ (∀ (entry_prices : List (String × ℚ)) (pos : BrokerPosition),
        lookupQ entry_prices (pos.symbol ++ "_" ++ toString pos.conId) = none →
        pos.avgCost = 0 →
        monitor_check_position st entry_prices pos kind =
          Except.error "ZeroDivisionError") := by
  refine ⟨?_, ?_, ?_⟩
  · intro h
    unfold check_exit_conditions_checked
    rw [if_neg h]
  · intro h
    unfold check_exit_conditions_checked
    rw [if_pos h]
  · intro entry_prices pos hnone hzero
    unfold monitor_check_position check_exit_conditions_checked
    rw [hnone]
    simp only [Option.getD_none, hzero]
    exact if_pos trivial

/-- Witness for C10: a nonzero entry price makes the checked exit
computation total. -/
theorem c10_entry_price_guard_witness :
    check_exit_conditions_checked ⟨[], []⟩ "T" 100 130 "bull" =
      Except.ok (check_exit_conditions ⟨[], []⟩ "T" 100 130 "bull") :=
  (c10_entry_price_guard ⟨[], []⟩ "T" 100 130 "bull").1 (by decide)

end OptionsBot
